import Mathlib

/-!
# provider-toolbox: the HttpRequest reconciler

A shallow embedding of

* `apis/httprequest/v1alpha1/httprequest_types.go` (the declarative data model),
* `apis/httprequest/builder.go` (`resolveNamedValue`, `httpRequestDoer.Do`),
* `internal/controllers/httprequest/httprequest.go`
  (`external.Observe`, `Create`, `Update`, `Delete`, `computeSHA1`),

followed by theorems about value resolution, request building, the status
check of the fetcher and the reconciliation callbacks.

Conventions.

* A Go `string` and a Go `[]byte` are both finite byte sequences and
  `string(res)` copies the bytes; both are represented by `String` (the text
  they hold) and the conversion is the identity.  A nil byte slice is the
  empty sequence.  `len` is the byte length.
* A Go `error` is an `Option Error`; `none` is `nil`.
* A Go pointer field (`*string`, `*ValueSelector`) is an `Option`.
* Collaborators that are not part of the two packages are parameters: the Go
  standard library functions used (`Lib`), the keyed store behind
  `helpers.GetConfigMapValue` and friends (`Store`), and the HTTP transport
  (`Transport`).  Theorems quantify over all of them.
* Logging, event recording and `http.DetectContentType` only feed log lines
  and events; they have no effect on results or on the store and are left out.
-/

set_option autoImplicit false

namespace ProviderToolbox

/-! ## Errors -/

/-- Go error values that occur in the two packages. -/
inductive Error where
  /-- An error produced by a collaborator (store, transport, parser, reader). -/
  | lib (msg : String)
  /-- The value of `fmt.Errorf("unknown error, status code: %d", code)`. -/
  | status (code : Int)
  /-- The value of `fmt.Errorf(msg + ": %w", e)`. -/
  | wrap (msg : String) (e : Error)
  /-- The value of `errors.New(msg)`. -/
  | new (msg : String)
  deriving DecidableEq, Repr

deriving instance DecidableEq for Except

/-- The constant `errInvalidCRD`. -/
def errInvalidCRD : String := "managed resource is not an GetRequest custom resource"

/-! ## Data model (`httprequest_types.go`) -/

/-- A selector for a configMap or a secret in an arbitrary namespace. -/
structure ValueSelector where
  Name : String
  Namespace : String
  Key : String
  deriving DecidableEq, Repr

/-- The struct `NamedValue`. -/
structure NamedValue where
  Name : String
  SecretRef : Option ValueSelector := none
  ConfigMapRef : Option ValueSelector := none
  Value : Option String := none
  Format : Option String := none
  deriving DecidableEq, Repr

/-- The struct `HttpRequestParams`. -/
structure HttpRequestParams where
  URL : String
  Method : Option String := none
  Params : List NamedValue := []
  Headers : List NamedValue := []
  WriteResponseToConfigMap : ValueSelector
  deriving DecidableEq, Repr

/-- The struct `HttpRequestObservation`. -/
structure HttpRequestObservation where
  Target : Option String := none
  Name : Option String := none
  Namespace : Option String := none
  Key : Option String := none
  deriving DecidableEq, Repr

/-- The three conditions of type Ready that the callbacks set
(`xpv1.Available()`, `xpv1.Creating()`, `xpv1.Deleting()`). -/
inductive Condition where
  | Available
  | Creating
  | Deleting
  deriving DecidableEq, Repr

/-- The struct `HttpRequestStatus`: the observation and the condition of type
Ready, the only condition type the callbacks write. -/
structure HttpRequestStatus where
  AtProvider : HttpRequestObservation := {}
  Ready : Option Condition := none
  deriving DecidableEq, Repr

/-- The struct `HttpRequestSpec`. -/
structure HttpRequestSpec where
  ForProvider : HttpRequestParams
  deriving DecidableEq, Repr

/-- The struct `HttpRequest`. -/
structure HttpRequest where
  Spec : HttpRequestSpec
  Status : HttpRequestStatus := {}
  deriving DecidableEq, Repr

/-- A `resource.Managed` value: an `*v1alpha1.HttpRequest` or something else
(the type assertion at the head of every callback tells them apart). -/
inductive Managed where
  | httpRequest (cr : HttpRequest)
  | other
  deriving DecidableEq, Repr

/-- Setting a condition of type Ready on the resource replaces the previous one. -/
def HttpRequest.SetConditions (cr : HttpRequest) (c : Condition) : HttpRequest :=
  { cr with Status := { cr.Status with Ready := some c } }

/-! ## Helper declarations used by the sources -/

/-- The struct `helpers.ConfigMapKeySelector`, as the call sites fill it. -/
structure ConfigMapKeySelector where
  Name : String
  Namespace : String
  Key : String
  deriving DecidableEq, Repr

/-- The struct `helpers.SecretKeySelector`, as the call sites fill it. -/
structure SecretKeySelector where
  Name : String
  Namespace : String
  Key : String
  deriving DecidableEq, Repr

/-- Modelled from the spec: `helpers.StringValue` (package `internal/helpers`
is not among the sources).  It reads a string pointer: the literal "if
present"; a nil pointer reads as the empty string. -/
def StringValue (p : Option String) : String :=
  match p with
  | some s => s
  | none => ""

/-- Modelled from the spec: `helpers.StringOrDefault` (package
`internal/helpers` is not among the sources).  "Method defaults to GET when
unspecified; otherwise used verbatim." -/
def StringOrDefault (p : Option String) (dflt : String) : String :=
  match p with
  | some s => s
  | none => dflt

/-- Modelled from the spec: `helpers.StringPtr` (package `internal/helpers` is
not among the sources): a pointer to the given string. -/
def StringPtr (s : String) : Option String := some s

/-- Go `len` of a string: its length in bytes. -/
def len (s : String) : Nat := s.utf8ByteSize

/-! ## Collaborators -/

/-- The type `url.Values`: a map from a key to its list of values. -/
abbrev Values := List (String × List String)

/-- The index expression `v[key]`: the values of `key`, nil when absent. -/
def Values.index (v : Values) (key : String) : List String :=
  match v with
  | [] => []
  | (k, xs) :: rest => if k = key then xs else Values.index rest key

/-- The assignment `v[key] = xs`. -/
def Values.assign (v : Values) (key : String) (xs : List String) : Values :=
  match v with
  | [] => [(key, xs)]
  | (k, ys) :: rest =>
    if k = key then (k, xs) :: rest else (k, ys) :: Values.assign rest key xs

/-- The method `url.Values.Add`: `v[key] = append(v[key], value)`. -/
def Values.Add (v : Values) (key value : String) : Values :=
  v.assign key (v.index key ++ [value])

/-- The method `http.Header.Set` on an already canonical key:
`h[key] = []string{value}`. -/
def Values.Set (v : Values) (key value : String) : Values :=
  v.assign key [value]

/-- The fields of `url.URL`; the sources read and write `RawQuery` only. -/
structure URL where
  Scheme : String := ""
  Host : String := ""
  Path : String := ""
  RawQuery : String := ""
  Fragment : String := ""
  deriving DecidableEq, Repr

/-- The fields of `http.Request` the sources determine. -/
structure Request where
  Method : String
  URL : String
  Header : Values := []
  deriving DecidableEq, Repr

/-- The fields of `http.Response` the sources read.  `Body` is `none` for a
nil body; otherwise it holds what `io.ReadAll` returns on it. -/
structure Response where
  StatusCode : Int
  Body : Option (Except Error String) := none

/-- The HTTP client `r.HttpClient.Do`. -/
abbrev Transport := Request → Except Error Response

/-- The Go standard library functions called by the sources. -/
structure Lib where
  /-- The function `strings.TrimSpace`. -/
  TrimSpace : String → String
  /-- The function `fmt.Sprintf` with one string operand. -/
  Sprintf : String → String → String
  /-- The function `url.Parse`. -/
  Parse : String → Except Error URL
  /-- The function `url.ParseQuery`, whose error `URL.Query` discards. -/
  ParseQuery : String → Values
  /-- The method `url.Values.Encode`. -/
  Encode : Values → String
  /-- The method `URL.String`. -/
  URLString : URL → String
  /-- The function `http.NewRequestWithContext` with a nil body. -/
  NewRequest : String → String → Except Error Request
  /-- The function `http.CanonicalHeaderKey`. -/
  CanonicalHeaderKey : String → String
  /-- The bytes of the digest `sha1.New()`, `Write`, `Sum(nil)` of a byte sequence. -/
  Sha1Sum : String → List Nat
  /-- The function `hex.EncodeToString`. -/
  HexEncodeToString : List Nat → String

/-- The method `URL.Query`. -/
def Lib.Query (L : Lib) (u : URL) : Values := L.ParseQuery u.RawQuery

/-- The keyed store behind `helpers.GetConfigMapValue`, `GetSecretValue`,
`SetConfigMapValue` and `DeleteConfigMapValue` (package `internal/helpers` is
not among the sources), over a cluster state of type `K`. -/
structure Store (K : Type) where
  GetConfigMapValue : K → ConfigMapKeySelector → String × Option Error
  GetSecretValue : K → SecretKeySelector → String × Option Error
  SetConfigMapValue : K → ConfigMapKeySelector → String → K × Option Error
  DeleteConfigMapValue : K → ConfigMapKeySelector → K × Option Error

/-! ## `builder.go` -/

section builder

variable {K : Type}

/-- The function `resolveNamedValue` (builder.go, lines 95-126). -/
def resolveNamedValue (L : Lib) (S : Store K) (kc : K) (ref : NamedValue) :
    String × Option Error :=
  -- named results: val = "", err = nil
  let r0 : String × Option Error := ("", none)
  -- if ref.ConfigMapRef != nil
  let r1 : String × Option Error :=
    match ref.ConfigMapRef with
    | some c =>
      S.GetConfigMapValue kc { Name := c.Name, Namespace := c.Namespace, Key := c.Key }
    | none => r0
  -- if (len(val) == 0) && (ref.SecretRef != nil)
  let r2 : String × Option Error :=
    match ref.SecretRef with
    | some s =>
      if len r1.1 = 0 then
        S.GetSecretValue kc { Name := s.Name, Namespace := s.Namespace, Key := s.Key }
      else r1
    | none => r1
  -- if (len(val) == 0) && ref.Value != nil
  let val : String :=
    match ref.Value with
    | some v => if len r2.1 = 0 then StringValue (some v) else r2.1
    | none => r2.1
  let err : Option Error := r2.2
  if len val = 0 then
    ("", err)
  else
    let val := L.TrimSpace val
    let val :=
      match ref.Format with
      | some f => L.Sprintf (StringValue (some f)) val
      | none => val
    (val, err)

/-- The loop over `spec.Params` in `Do` (builder.go, lines 45-52): an entry
whose resolution returns an error is skipped, any other is added. -/
def addParams (L : Lib) (S : Store K) (kc : K) (els : List NamedValue) (params : Values) :
    Values :=
  match els with
  | [] => params
  | el :: rest =>
    match resolveNamedValue L S kc el with
    | (_, some _) => addParams L S kc rest params
    | (val, none) => addParams L S kc rest (params.Add el.Name val)

/-- The query stage of `Do` (builder.go, lines 43-54): the parsed URL with its
`RawQuery` rewritten when `spec.Params` is not empty. -/
def buildURL (L : Lib) (S : Store K) (kc : K) (spec : HttpRequestParams) (uri : URL) : URL :=
  let params := L.Query uri
  if spec.Params.length > 0 then
    { uri with RawQuery := L.Encode (addParams L S kc spec.Params params) }
  else uri

/-- The loop over `spec.Headers` in `Do` (builder.go, lines 63-70): an entry
whose resolution returns an error is skipped, any other is set. -/
def setHeaders (L : Lib) (S : Store K) (kc : K) (els : List NamedValue) (header : Values) :
    Values :=
  match els with
  | [] => header
  | el :: rest =>
    match resolveNamedValue L S kc el with
    | (_, some _) => setHeaders L S kc rest header
    | (val, none) => setHeaders L S kc rest (header.Set (L.CanonicalHeaderKey el.Name) val)

/-- The request that `Do` hands to the HTTP client (builder.go, lines 38-71),
or the error with which `Do` returns before it. -/
def buildRequest (L : Lib) (S : Store K) (kc : K) (spec : HttpRequestParams) :
    Except Error Request :=
  match L.Parse spec.URL with
  | .error e => .error e
  | .ok uri =>
    let uri := buildURL L S kc spec uri
    let method := StringOrDefault spec.Method "GET"
    match L.NewRequest method (L.URLString uri) with
    | .error e => .error e
    | .ok req =>
      if spec.Headers.length > 0 then
        .ok { req with Header := setHeaders L S kc spec.Headers req.Header }
      else .ok req

/-- The fetch stage of `Do` (builder.go, lines 73-92). -/
def fetch (cli : Transport) (req : Request) : String × Option Error :=
  match cli req with
  | .error e => ("", some e)
  | .ok rsp =>
    if rsp.StatusCode < 200 ∨ rsp.StatusCode ≥ 300 then
      ("", some (Error.status rsp.StatusCode))
    else
      match rsp.Body with
      | none => ("", none)
      | some (.error e) => ("", some e)
      | some (.ok dat) => (dat, none)

/-- The method `httpRequestDoer.Do` (builder.go, lines 37-93). -/
def Do (L : Lib) (S : Store K) (cli : Transport) (kc : K) (spec : HttpRequestParams) :
    String × Option Error :=
  match buildRequest L S kc spec with
  | .error e => ("", some e)
  | .ok req => fetch cli req

end builder

/-! ## `httprequest.go` -/

section controller

variable {K : Type}

/-- The struct `managed.ExternalObservation`, the two fields the sources set. -/
structure ExternalObservation where
  ResourceExists : Bool := false
  ResourceUpToDate : Bool := false
  deriving DecidableEq, Repr

/-- What a call of `Observe` returns and leaves behind: the observation, the
error, and the managed resource after the call. -/
structure ObserveResult where
  obs : ExternalObservation
  err : Option Error
  mg : Managed
  deriving DecidableEq, Repr

/-- What a call of `Create`, `Update` or `Delete` returns and leaves behind:
the error, the cluster state and the managed resource after the call, and the
calls of `helpers.SetConfigMapValue` it made, in order. -/
structure WriteResult (K : Type) where
  err : Option Error
  kube : K
  mg : Managed
  setCalls : List (ConfigMapKeySelector × String)

/-- The function `computeSHA1` (httprequest.go, lines 262-269).  The `Write`
of a `hash.Hash` never returns an error, so the first return is never taken. -/
def computeSHA1 (L : Lib) (val : String) : String × Option Error :=
  (L.HexEncodeToString (L.Sha1Sum val), none)

/-- The function `generateObservation` (httprequest.go, lines 253-260). -/
def generateObservation (e : HttpRequestParams) : HttpRequestObservation :=
  { Target := StringPtr "ConfigMap"
    Name := StringPtr e.WriteResponseToConfigMap.Name
    Namespace := StringPtr e.WriteResponseToConfigMap.Namespace
    Key := StringPtr e.WriteResponseToConfigMap.Key }

/-- The selector both `Observe`, `Create`, `Update` and `Delete` build from
`spec.WriteResponseToConfigMap`. -/
def sinkRef (spec : HttpRequestParams) : ConfigMapKeySelector :=
  { Name := spec.WriteResponseToConfigMap.Name
    Namespace := spec.WriteResponseToConfigMap.Namespace
    Key := spec.WriteResponseToConfigMap.Key }

/-- The method `external.Observe` (httprequest.go, lines 98-157). -/
def Observe (L : Lib) (S : Store K) (cli : Transport) (kc : K) (mg : Managed) :
    ObserveResult :=
  match mg with
  | .other => { obs := {}, err := some (Error.new errInvalidCRD), mg := mg }
  | .httpRequest cr =>
    let spec := cr.Spec.ForProvider
    let ref := sinkRef spec
    match S.GetConfigMapValue kc ref with
    | (_, some err) => { obs := {}, err := some err, mg := mg }
    | (val, none) =>
      if len val = 0 then
        { obs := { ResourceExists := false, ResourceUpToDate := true }, err := none, mg := mg }
      else
        match computeSHA1 L val with
        | (_, some err) =>
          { obs := {}, err := some (Error.wrap "cannot compute SHA1" err), mg := mg }
        | (inpHash, none) =>
          match Do L S cli kc spec with
          | (_, some err) =>
            { obs := {}, err := some (Error.wrap "cannot fetch content" err), mg := mg }
          | (res, none) =>
            match computeSHA1 L res with
            | (_, some err) =>
              { obs := {}, err := some (Error.wrap "cannot compute SHA1" err), mg := mg }
            | (expHash, none) =>
              if inpHash ≠ expHash then
                { obs := { ResourceExists := true, ResourceUpToDate := false }
                  err := none, mg := mg }
              else
                let cr := { cr with Status := { cr.Status with
                              AtProvider := generateObservation spec } }
                let cr := cr.SetConditions Condition.Available
                { obs := { ResourceExists := true, ResourceUpToDate := true }
                  err := none, mg := .httpRequest cr }

/-- The method `external.Create` (httprequest.go, lines 159-197). -/
def Create (L : Lib) (S : Store K) (cli : Transport) (kc : K) (mg : Managed) :
    WriteResult K :=
  match mg with
  | .other => { err := some (Error.new errInvalidCRD), kube := kc, mg := mg, setCalls := [] }
  | .httpRequest cr =>
    let cr := cr.SetConditions Condition.Creating
    let spec := cr.Spec.ForProvider
    match Do L S cli kc spec with
    | (_, some err) => { err := some err, kube := kc, mg := .httpRequest cr, setCalls := [] }
    | (res, none) =>
      let val := res
      let ref := sinkRef spec
      match S.SetConfigMapValue kc ref val with
      | (kc1, some err) =>
        { err := some err, kube := kc1, mg := .httpRequest cr, setCalls := [(ref, val)] }
      | (kc1, none) =>
        { err := none, kube := kc1, mg := .httpRequest cr, setCalls := [(ref, val)] }

/-- The method `external.Update` (httprequest.go, lines 199-234). -/
def Update (L : Lib) (S : Store K) (cli : Transport) (kc : K) (mg : Managed) :
    WriteResult K :=
  match mg with
  | .other => { err := some (Error.new errInvalidCRD), kube := kc, mg := mg, setCalls := [] }
  | .httpRequest cr =>
    let spec := cr.Spec.ForProvider
    match Do L S cli kc spec with
    | (_, some err) => { err := some err, kube := kc, mg := mg, setCalls := [] }
    | (res, none) =>
      let val := res
      let ref := sinkRef spec
      match S.SetConfigMapValue kc ref val with
      | (kc1, some err) => { err := some err, kube := kc1, mg := mg, setCalls := [(ref, val)] }
      | (kc1, none) => { err := none, kube := kc1, mg := mg, setCalls := [(ref, val)] }

/-- The method `external.Delete` (httprequest.go, lines 236-251). -/
def Delete (S : Store K) (kc : K) (mg : Managed) : WriteResult K :=
  match mg with
  | .other => { err := some (Error.new errInvalidCRD), kube := kc, mg := mg, setCalls := [] }
  | .httpRequest cr =>
    let cr := cr.SetConditions Condition.Deleting
    let spec := cr.Spec.ForProvider
    match S.DeleteConfigMapValue kc (sinkRef spec) with
    | (kc1, err) => { err := err, kube := kc1, mg := .httpRequest cr, setCalls := [] }

end controller

/-! ## The specification's reading of value resolution -/

section resolution

variable {K : Type}

/-- The value the ConfigMap lookup of a named value yields: empty when the
named value has no `configMapRef`. -/
def configMapValue (S : Store K) (kc : K) (ref : NamedValue) : String :=
  match ref.ConfigMapRef with
  | some c => (S.GetConfigMapValue kc { Name := c.Name, Namespace := c.Namespace, Key := c.Key }).1
  | none => ""

/-- The error the ConfigMap lookup of a named value yields: nil when the named
value has no `configMapRef`. -/
def configMapError (S : Store K) (kc : K) (ref : NamedValue) : Option Error :=
  match ref.ConfigMapRef with
  | some c => (S.GetConfigMapValue kc { Name := c.Name, Namespace := c.Namespace, Key := c.Key }).2
  | none => none

/-- The value the Secret lookup of a named value yields: empty when the named
value has no `secretRef`. -/
def secretValue (S : Store K) (kc : K) (ref : NamedValue) : String :=
  match ref.SecretRef with
  | some c => (S.GetSecretValue kc { Name := c.Name, Namespace := c.Namespace, Key := c.Key }).1
  | none => ""

/-- The error the Secret lookup of a named value yields: nil when the named
value has no `secretRef`. -/
def secretError (S : Store K) (kc : K) (ref : NamedValue) : Option Error :=
  match ref.SecretRef with
  | some c => (S.GetSecretValue kc { Name := c.Name, Namespace := c.Namespace, Key := c.Key }).2
  | none => none

/-- The literal of a named value: empty when it has no `value`. -/
def literalValue (ref : NamedValue) : String :=
  match ref.Value with
  | some v => v
  | none => ""

/-- The first non-empty string of a list, if any: "first non-empty wins". -/
def firstNonEmpty (xs : List String) : Option String :=
  match xs with
  | [] => none
  | x :: rest => if x = "" then firstNonEmpty rest else some x

/-- The optional format step: the value substituted into the template when a
template is set, the value itself otherwise. -/
def applyFormat (L : Lib) (format : Option String) (val : String) : String :=
  match format with
  | some f => L.Sprintf f val
  | none => val

/-- The resolved string as the specification words it: the first non-empty
value in the order ConfigMap lookup, Secret lookup, literal, trimmed and then
formatted; the empty string when there is none. -/
def resolveSpec (L : Lib) (S : Store K) (kc : K) (ref : NamedValue) : String :=
  match firstNonEmpty [configMapValue S kc ref, secretValue S kc ref, literalValue ref] with
  | some v => applyFormat L ref.Format (L.TrimSpace v)
  | none => ""

/-- The error of the last store lookup that resolution performs: the Secret
lookup when there is a `secretRef` and the ConfigMap lookup came up empty,
the ConfigMap lookup otherwise. -/
def lastLookupError (S : Store K) (kc : K) (ref : NamedValue) : Option Error :=
  match ref.SecretRef with
  | some _ =>
    if configMapValue S kc ref = "" then secretError S kc ref else configMapError S kc ref
  | none => configMapError S kc ref

/-- The number of operand-consuming verbs of a template without flags: a
percent sign followed by any character but a percent sign. -/
def placeholderCount (cs : List Char) : Nat :=
  match cs with
  | [] => 0
  | [_] => 0
  | c :: d :: rest =>
    if c = '%' then
      (if d = '%' then 0 else 1) + placeholderCount rest
    else placeholderCount (d :: rest)

/-- The resolved values of exactly those entries named `n` whose resolution
returned no error, in declared order. -/
def resolvedValues (L : Lib) (S : Store K) (kc : K) (els : List NamedValue) (n : String) :
    List String :=
  els.filterMap (fun el =>
    if el.Name = n ∧ (resolveNamedValue L S kc el).2 = none then
      some (resolveNamedValue L S kc el).1
    else none)

end resolution

/-! ## An instance to evaluate the model on

The theorems below hold for every `Lib`, `Store` and `Transport`.  To run the
definitions on concrete inputs, the following instance supplies the standard
library on the plain inputs used in the examples (ASCII text, templates with
the verbs `%s`, `%v` and `%%` only, URLs of the shape `path?query` with
unreserved characters) and a keyed store held in memory.
-/

section instances

/-- The predicate `unicode.IsSpace`. -/
def isSpace (c : Char) : Bool :=
  let n := c.toNat
  n = 9 || n = 10 || n = 11 || n = 12 || n = 13 || n = 32 || n = 0x85 || n = 0xA0 ||
    n = 0x1680 || (0x2000 ≤ n && n ≤ 0x200a) || n = 0x2028 || n = 0x2029 || n = 0x202f ||
    n = 0x205f || n = 0x3000

/-- The function `strings.TrimSpace`: leading and trailing white space removed. -/
def goTrimSpace (s : String) : String :=
  ⟨((s.data.dropWhile isSpace).reverse.dropWhile isSpace).reverse⟩

/-- The tail `%!(EXTRA string=arg)` that `fmt.Sprintf` appends when the operand
was not consumed. -/
def sprintfExtra (arg : List Char) (used : Bool) : List Char :=
  if used then [] else "%!(EXTRA string=".data ++ arg ++ [')']

/-- The function `fmt.Sprintf` with one string operand, on templates whose
verbs are `%s`, `%v` and `%%` without flags, width or precision: the first
verb prints the operand, a later one prints `%!s(MISSING)`, and an operand
left over is reported at the end. -/
def sprintfChars (arg : List Char) (used : Bool) (cs : List Char) : List Char :=
  match cs with
  | [] => sprintfExtra arg used
  | [c] => if c = '%' then "%!(NOVERB)".data ++ sprintfExtra arg used
           else c :: sprintfExtra arg used
  | c :: d :: rest =>
    if c = '%' then
      if d = '%' then '%' :: sprintfChars arg used rest
      else if used then "%!".data ++ [d] ++ "(MISSING)".data ++ sprintfChars arg used rest
      else if d = 's' ∨ d = 'v' then arg ++ sprintfChars arg true rest
      else "%!".data ++ [d] ++ "(string=".data ++ arg ++ [')'] ++ sprintfChars arg true rest
    else c :: sprintfChars arg used (d :: rest)

/-- The instance of `fmt.Sprintf`. -/
def goSprintf (format arg : String) : String :=
  ⟨sprintfChars arg.data false format.data⟩

/-- The characters before the first occurrence of `sep`. -/
def beforeChar (sep : Char) (cs : List Char) : List Char :=
  cs.takeWhile (fun c => c != sep)

/-- The characters after the first occurrence of `sep`; none when it does not occur. -/
def afterChar (sep : Char) (cs : List Char) : List Char :=
  (cs.dropWhile (fun c => c != sep)).drop 1

/-- The function `url.Parse` on `path?query`: everything before the first
question mark is kept as the path, the rest is the raw query. -/
def goParse (s : String) : Except Error URL :=
  .ok { Path := ⟨beforeChar '?' s.data⟩, RawQuery := ⟨afterChar '?' s.data⟩ }

/-- The method `URL.String` on what `goParse` returns. -/
def goURLString (u : URL) : String :=
  if u.RawQuery = "" then u.Path else u.Path ++ "?" ++ u.RawQuery

/-- The pieces of a list of characters between occurrences of `sep`. -/
def splitChars (sep : Char) (cs : List Char) : List (List Char) :=
  match cs with
  | [] => [[]]
  | c :: rest =>
    match splitChars sep rest with
    | [] => [[]]
    | piece :: pieces => if c = sep then [] :: piece :: pieces else (c :: piece) :: pieces

/-- The function `url.ParseQuery` on pairs that need no unescaping. -/
def goParseQuery (q : String) : Values :=
  (splitChars '&' q.data).foldl
    (fun v piece =>
      if piece = [] then v
      else v.Add ⟨beforeChar '=' piece⟩ ⟨afterChar '=' piece⟩)
    []

/-- The order of Go strings: lexicographic. -/
def keyLt (a b : List Char) : Bool :=
  match a, b with
  | [], [] => false
  | [], _ :: _ => true
  | _ :: _, [] => false
  | x :: xs, y :: ys => decide (x.toNat < y.toNat) || (decide (x.toNat = y.toNat) && keyLt xs ys)

/-- Insertion of a key with its values into a list sorted by key. -/
def insertByKey (kv : String × List String) (v : Values) : Values :=
  match v with
  | [] => [kv]
  | x :: rest =>
    if keyLt kv.1.data x.1.data then kv :: x :: rest else x :: insertByKey kv rest

/-- The method `url.Values.Encode` on keys and values that need no escaping:
`key=value` pairs joined by an ampersand, sorted by key. -/
def goEncode (v : Values) : String :=
  let sorted := v.foldr insertByKey []
  let pairs := sorted.flatMap (fun kv => kv.2.map (fun x => kv.1.data ++ '=' :: x.data))
  ⟨List.intercalate ['&'] pairs⟩

/-- The function `http.NewRequestWithContext` on a valid method and URL: an
empty method means GET and the header map starts empty. -/
def goNewRequest (method url : String) : Except Error Request :=
  .ok { Method := if method = "" then "GET" else method, URL := url, Header := [] }

/-- Upper case after a hyphen and at the start, lower case elsewhere. -/
def canonicalChars (upper : Bool) (cs : List Char) : List Char :=
  match cs with
  | [] => []
  | c :: rest => (if upper then c.toUpper else c.toLower) :: canonicalChars (c = '-') rest

/-- The function `http.CanonicalHeaderKey` on a key of letters, digits and hyphens. -/
def goCanonicalHeaderKey (s : String) : String := ⟨canonicalChars true s.data⟩

/-- The UTF-8 bytes of a character. -/
def utf8Bytes (c : Char) : List Nat :=
  let n := c.toNat
  if n < 0x80 then [n]
  else if n < 0x800 then [0xC0 + n / 64, 0x80 + n % 64]
  else if n < 0x10000 then [0xE0 + n / 4096, 0x80 + n / 64 % 64, 0x80 + n % 64]
  else [0xF0 + n / 262144, 0x80 + n / 4096 % 64, 0x80 + n / 64 % 64, 0x80 + n % 64]

/-- Rotation of a 32-bit word to the left. -/
def rotl32 (n x : Nat) : Nat := ((x <<< n) ||| (x >>> (32 - n))) % 2 ^ 32

/-- The big-endian bytes of a number, `count` of them. -/
def bigEndian (count n : Nat) : List Nat :=
  (List.range count).map (fun i => n >>> (8 * (count - 1 - i)) % 256)

/-- The SHA-1 padding of a message: a one bit, zeros, and the bit length in
eight bytes, up to a multiple of 64 bytes. -/
def sha1Pad (bs : List Nat) : List Nat :=
  bs ++ [0x80] ++ List.replicate ((119 - bs.length % 64) % 64) 0 ++ bigEndian 8 (8 * bs.length)

/-- The eighty words of the message schedule of one 64-byte block. -/
def sha1Schedule (block : List Nat) : List Nat :=
  let w16 := (List.range 16).map (fun i =>
    block.getD (4 * i) 0 * 2 ^ 24 + block.getD (4 * i + 1) 0 * 2 ^ 16 +
      block.getD (4 * i + 2) 0 * 2 ^ 8 + block.getD (4 * i + 3) 0)
  (List.range 64).foldl
    (fun w j =>
      w ++ [rotl32 1 (w.getD (j + 13) 0 ^^^ w.getD (j + 8) 0 ^^^ w.getD (j + 2) 0 ^^^ w.getD j 0)])
    w16

/-- One round of the SHA-1 compression function. -/
def sha1Round (w : List Nat) (st : Nat × Nat × Nat × Nat × Nat) (i : Nat) :
    Nat × Nat × Nat × Nat × Nat :=
  match st with
  | (a, b, c, d, e) =>
    let f :=
      if i < 20 then (b &&& c) ||| ((0xFFFFFFFF ^^^ b) &&& d)
      else if i < 40 then b ^^^ c ^^^ d
      else if i < 60 then (b &&& c) ||| (b &&& d) ||| (c &&& d)
      else b ^^^ c ^^^ d
    let k :=
      if i < 20 then 0x5A827999
      else if i < 40 then 0x6ED9EBA1
      else if i < 60 then 0x8F1BBCDC
      else 0xCA62C1D6
    ((rotl32 5 a + f + e + k + w.getD i 0) % 2 ^ 32, a, rotl32 30 b, c, d)

/-- The SHA-1 compression of one block into the running state. -/
def sha1Block (h : Nat × Nat × Nat × Nat × Nat) (block : List Nat) :
    Nat × Nat × Nat × Nat × Nat :=
  let w := sha1Schedule block
  match h, (List.range 80).foldl (sha1Round w) h with
  | (h0, h1, h2, h3, h4), (a, b, c, d, e) =>
    ((h0 + a) % 2 ^ 32, (h1 + b) % 2 ^ 32, (h2 + c) % 2 ^ 32, (h3 + d) % 2 ^ 32,
      (h4 + e) % 2 ^ 32)

/-- The SHA-1 digest of a byte sequence, twenty bytes. -/
def sha1Bytes (bs : List Nat) : List Nat :=
  let padded := sha1Pad bs
  let blocks := (List.range (padded.length / 64)).map (fun i => (padded.drop (64 * i)).take 64)
  match blocks.foldl sha1Block (0x67452301, 0xEFCDAB89, 0x98BADCFE, 0x10325476, 0xC3D2E1F0) with
  | (h0, h1, h2, h3, h4) =>
    bigEndian 4 h0 ++ bigEndian 4 h1 ++ bigEndian 4 h2 ++ bigEndian 4 h3 ++ bigEndian 4 h4

/-- The instance of `sha1.New()`, `Write`, `Sum(nil)`. -/
def goSha1Sum (s : String) : List Nat := sha1Bytes (s.data.flatMap utf8Bytes)

/-- The hexadecimal digit of a number below sixteen. -/
def hexDigit (n : Nat) : Char := "0123456789abcdef".data.getD n '0'

/-- The function `hex.EncodeToString`. -/
def goHexEncodeToString (bs : List Nat) : String :=
  ⟨bs.flatMap (fun b => [hexDigit (b / 16), hexDigit (b % 16)])⟩

/-- The standard library instance. -/
def goLib : Lib :=
  { TrimSpace := goTrimSpace
    Sprintf := goSprintf
    Parse := goParse
    ParseQuery := goParseQuery
    Encode := goEncode
    URLString := goURLString
    NewRequest := goNewRequest
    CanonicalHeaderKey := goCanonicalHeaderKey
    Sha1Sum := goSha1Sum
    HexEncodeToString := goHexEncodeToString }

/-- The data of the objects of one kind in the cluster: for each
(namespace, name) the key-value entries of the object. -/
abbrev Objects := List ((String × String) × List (String × String))

/-- The entries of the object at (namespace, name), if the object exists. -/
def Objects.find (os : Objects) (ns name : String) : Option (List (String × String)) :=
  match os with
  | [] => none
  | (id, data) :: rest => if id = (ns, name) then some data else Objects.find rest ns name

/-- The entry `key` of a list of entries, if any. -/
def entryOf (data : List (String × String)) (key : String) : Option String :=
  match data with
  | [] => none
  | (k, v) :: rest => if k = key then some v else entryOf rest key

/-- The entries with `key` set to `value`. -/
def setEntry (data : List (String × String)) (key value : String) : List (String × String) :=
  match data with
  | [] => [(key, value)]
  | (k, v) :: rest => if k = key then (k, value) :: rest else (k, v) :: setEntry rest key value

/-- The objects with the object at (namespace, name) replaced or added. -/
def Objects.put (os : Objects) (ns name : String) (data : List (String × String)) : Objects :=
  match os with
  | [] => [((ns, name), data)]
  | (id, d) :: rest =>
    if id = (ns, name) then (id, data) :: rest else (id, d) :: Objects.put rest ns name data

/-- A cluster state held in memory: the ConfigMaps and the Secrets. -/
structure Cluster where
  configMaps : Objects := []
  secrets : Objects := []
  deriving DecidableEq, Repr

/-- The value at `key` of the object at (namespace, name): an error when the
object does not exist, the empty string and no error when only the key is
missing. -/
def getValue (os : Objects) (what ns name key : String) : String × Option Error :=
  match os.find ns name with
  | none => ("", some (Error.lib (what ++ " not found")))
  | some data =>
    match entryOf data key with
    | some v => (v, none)
    | none => ("", none)

/-- Modelled from the spec: the keyed store collaborator (package
`internal/helpers` is not among the sources), section 6: `get(name, namespace,
key)`, `set(name, namespace, key, value)` and `delete(name, namespace, key)`,
the last one without error on an entry that is already absent. -/
def memStore : Store Cluster :=
  { GetConfigMapValue := fun kc r => getValue kc.configMaps "configmap" r.Namespace r.Name r.Key
    GetSecretValue := fun kc r => getValue kc.secrets "secret" r.Namespace r.Name r.Key
    SetConfigMapValue := fun kc r value =>
      let data := (kc.configMaps.find r.Namespace r.Name).getD []
      ({ kc with configMaps := kc.configMaps.put r.Namespace r.Name (setEntry data r.Key value) },
        none)
    DeleteConfigMapValue := fun kc r =>
      match kc.configMaps.find r.Namespace r.Name with
      | none => (kc, none)
      | some data =>
        ({ kc with configMaps :=
            kc.configMaps.put r.Namespace r.Name (data.filter (fun kv => kv.1 != r.Key)) },
          none) }

/-- A remote endpoint that answers every request with the given status and body. -/
def remote (status : Int) (body : Option String) : Transport :=
  fun _ => .ok { StatusCode := status, Body := body.map Except.ok }

/-- The sink of the scenarios: key `data` of ConfigMap `cm1` in namespace `ns`. -/
def sinkA : ValueSelector := { Name := "cm1", Namespace := "ns", Key := "data" }

/-- The spec of Scenario A. -/
def specA : HttpRequestParams :=
  { URL := "https://example.com/a", Params := [], Headers := [],
    WriteResponseToConfigMap := sinkA }

/-- A cluster in which the sink of the scenarios holds the given value. -/
def clusterWith (value : String) : Cluster :=
  { configMaps := [(("ns", "cm1"), [("data", value)])] }

/-- A cluster in which ConfigMap `cm1` exists and has no key `data`. -/
def clusterAbsent : Cluster :=
  { configMaps := [(("ns", "cm1"), [])] }

/-- A query parameter backed by the sink of the scenarios, with a literal and
a template. -/
def paramCM : NamedValue :=
  { Name := "q", ConfigMapRef := some sinkA, Value := some "literal", Format := some "v=%s" }

/-- A query parameter with a `configMapRef` to a ConfigMap that does not exist
and a `secretRef` to an existing Secret that has no such key. -/
def paramBoth : NamedValue :=
  { Name := "q"
    ConfigMapRef := some { Name := "nowhere", Namespace := "ns", Key := "k" }
    SecretRef := some { Name := "s1", Namespace := "ns", Key := "k" } }

/-- A cluster with Secret `s1` in namespace `ns`, without entries, and no ConfigMap. -/
def clusterSecretOnly : Cluster :=
  { configMaps := [], secrets := [(("ns", "s1"), [])] }

/-- A literal parameter whose template has no placeholder. -/
def paramNoVerb : NamedValue :=
  { Name := "q", Value := some "x", Format := some "abc" }

/-- A literal parameter whose template has two placeholders. -/
def paramTwoVerbs : NamedValue :=
  { Name := "q", Value := some "x", Format := some "%s-%s" }

/-- A parameter read from the sink of the scenarios, with a one-placeholder template. -/
def paramFormatted : NamedValue :=
  { Name := "q", ConfigMapRef := some sinkA, Format := some "Bearer %s" }

/-- The header of Scenario D: a `secretRef` to a Secret that does not exist
and the literal `default`. -/
def headerD : NamedValue :=
  { Name := "x-token"
    SecretRef := some { Name := "missing", Namespace := "ns", Key := "token" }
    Value := some "default" }

/-- The spec of Scenario A with the header of Scenario D. -/
def specD : HttpRequestParams :=
  { URL := "https://example.com/a", Params := [], Headers := [headerD],
    WriteResponseToConfigMap := sinkA }

/-- A header given by a literal only. -/
def headerLiteral : NamedValue :=
  { Name := "x-token", Value := some "default" }

/-- The request that `Do` builds for the spec of Scenario A. -/
def requestA : Request :=
  { Method := "GET", URL := "https://example.com/a", Header := [] }

/-- A parameter named `q` whose resolution fails: the literal is found, and the
error of the failed Secret lookup comes with it. -/
def paramFailing : NamedValue :=
  { Name := "q"
    SecretRef := some { Name := "missing", Namespace := "ns", Key := "token" }
    Value := some "lost" }

/-- A spec whose URL already carries a value of `q` and whose params name `q`
three times, the second one failing to resolve, and `r` once. -/
def specParams : HttpRequestParams :=
  { URL := "https://example.com/a?q=0"
    Params := [{ Name := "q", Value := some "1" }, paramFailing,
               { Name := "r", Value := some "9" }, { Name := "q", Value := some "1" }]
    WriteResponseToConfigMap := sinkA }

/-- The managed resource of Scenario A. -/
def resourceA : HttpRequest := { Spec := { ForProvider := specA } }

end instances

/-! ## Basic facts -/

section facts

variable {K : Type}

theorem utf8ByteSize_go_pos (c : Char) (cs : List Char) :
    0 < String.utf8ByteSize.go (c :: cs) := by
  have h := Char.utf8Size_pos c
  simp only [String.utf8ByteSize.go]
  omega

theorem len_eq_zero_iff (s : String) : len s = 0 ↔ s = "" := by
  constructor
  · intro h
    cases s with
    | mk data =>
      cases data with
      | nil => rfl
      | cons c cs =>
        have hp := utf8ByteSize_go_pos c cs
        simp only [len, String.utf8ByteSize] at h
        omega
  · intro h
    subst h
    rfl

set_option maxRecDepth 100000

/-- The digest instance on the test vector `abc` of the SHA-1 standard. -/
theorem goSha1Sum_abc :
    goHexEncodeToString (goSha1Sum "abc") = "a9993e364706816aba3e25717850c26c9cd0d89d" := by
  decide

/-- The trimming instance removes white space at both ends and keeps it inside. -/
theorem goTrimSpace_example : goTrimSpace " \t a b \n" = "a b" := by
  decide

theorem resolveNamedValue_fst (L : Lib) (S : Store K) (kc : K) (ref : NamedValue) :
    (resolveNamedValue L S kc ref).1 = resolveSpec L S kc ref := by
  obtain ⟨name, sref, cref, value, format⟩ := ref
  simp only [resolveNamedValue, resolveSpec, configMapValue, secretValue, literalValue,
    firstNonEmpty, applyFormat, StringValue, len_eq_zero_iff]
  cases cref <;> cases sref <;> cases value <;> cases format <;> simp <;>
    (repeat' split) <;> simp_all

theorem resolveNamedValue_snd (L : Lib) (S : Store K) (kc : K) (ref : NamedValue) :
    (resolveNamedValue L S kc ref).2 = lastLookupError S kc ref := by
  obtain ⟨name, sref, cref, value, format⟩ := ref
  simp only [resolveNamedValue, lastLookupError, configMapValue, configMapError, secretError,
    StringValue, len_eq_zero_iff]
  cases cref <;> cases sref <;> simp <;> (repeat' split) <;> simp_all

end facts

/-! ## Value resolution (`resolveNamedValue`) -/

section resolver

variable {K : Type}

/-- C4: the string returned by `resolveNamedValue` is the first non-empty value
in the order ConfigMap lookup, Secret lookup, literal `Value`, trimmed and then
substituted into the template when `Format` is set (the empty string when there
is none).  In particular a non-empty ConfigMap value wins, a non-empty Secret
value wins when the ConfigMap lookup is empty, the literal is used when both
are empty, and whenever a lookup wins the literal has no influence. -/
theorem resolveNamedValue_first_non_empty (L : Lib) (S : Store K) (kc : K) (ref : NamedValue) :
    (resolveNamedValue L S kc ref).1 = resolveSpec L S kc ref ∧
    (configMapValue S kc ref ≠ "" →
      (resolveNamedValue L S kc ref).1 =
        applyFormat L ref.Format (L.TrimSpace (configMapValue S kc ref))) ∧
    (configMapValue S kc ref = "" → secretValue S kc ref ≠ "" →
      (resolveNamedValue L S kc ref).1 =
        applyFormat L ref.Format (L.TrimSpace (secretValue S kc ref))) ∧
    (configMapValue S kc ref = "" → secretValue S kc ref = "" → literalValue ref ≠ "" →
      (resolveNamedValue L S kc ref).1 =
        applyFormat L ref.Format (L.TrimSpace (literalValue ref))) ∧
    (configMapValue S kc ref ≠ "" ∨ secretValue S kc ref ≠ "" →
      ∀ other : Option String,
        (resolveNamedValue L S kc { ref with Value := other }).1 =
          (resolveNamedValue L S kc ref).1) := by
  refine ⟨resolveNamedValue_fst L S kc ref, ?_, ?_, ?_, ?_⟩
  · intro h
    rw [resolveNamedValue_fst]
    simp [resolveSpec, firstNonEmpty, h]
  · intro h1 h2
    rw [resolveNamedValue_fst]
    simp [resolveSpec, firstNonEmpty, h1, h2]
  · intro h1 h2 h3
    rw [resolveNamedValue_fst]
    simp [resolveSpec, firstNonEmpty, h1, h2, h3]
  · intro h other
    rw [resolveNamedValue_fst, resolveNamedValue_fst]
    have hc : configMapValue S kc { ref with Value := other } = configMapValue S kc ref := rfl
    have hs : secretValue S kc { ref with Value := other } = secretValue S kc ref := rfl
    simp only [resolveSpec, firstNonEmpty, hc, hs]
    by_cases h1 : configMapValue S kc ref = ""
    · have h2 : secretValue S kc ref ≠ "" := by
        rcases h with h | h
        · exact absurd h1 h
        · exact h
      simp [h1, h2]
    · simp [h1]

/-- C4, on an example: the sink holds a padded value, so the ConfigMap value
wins over the literal, is trimmed and is formatted. -/
theorem resolveNamedValue_first_non_empty_witness :
    configMapValue memStore (clusterWith "  hello ") paramCM ≠ "" ∧
    (resolveNamedValue goLib memStore (clusterWith "  hello ") paramCM).1 = "v=hello" :=
  ⟨by decide,
   ((resolveNamedValue_first_non_empty goLib memStore (clusterWith "  hello ") paramCM).2.1
      (by decide)).trans (by decide)⟩

/-- C6, as stated, fails: the ConfigMap lookup returns an error, the Secret
lookup then returns an empty value and no error, nothing is resolved, and the
error returned is nil. -/
theorem resolveNamedValue_drops_earlier_error :
    configMapValue memStore clusterSecretOnly paramBoth = "" ∧
    secretValue memStore clusterSecretOnly paramBoth = "" ∧
    literalValue paramBoth = "" ∧
    configMapError memStore clusterSecretOnly paramBoth =
      some (Error.lib "configmap not found") ∧
    resolveNamedValue goLib memStore clusterSecretOnly paramBoth = ("", none) := by
  decide

/-- C6, amended: when none of ConfigMap lookup, Secret lookup and literal yields
a non-empty string, `resolveNamedValue` returns the empty string together with
the error of the last lookup it performed: the Secret lookup when there is a
`secretRef`, the ConfigMap lookup otherwise (nil when there is neither). -/
theorem resolveNamedValue_empty (L : Lib) (S : Store K) (kc : K) (ref : NamedValue)
    (hc : configMapValue S kc ref = "") (hs : secretValue S kc ref = "")
    (hl : literalValue ref = "") :
    (resolveNamedValue L S kc ref).1 = "" ∧
    (ref.SecretRef ≠ none → (resolveNamedValue L S kc ref).2 = secretError S kc ref) ∧
    (ref.SecretRef = none → (resolveNamedValue L S kc ref).2 = configMapError S kc ref) := by
  refine ⟨?_, ?_, ?_⟩
  · rw [resolveNamedValue_fst]
    simp [resolveSpec, firstNonEmpty, hc, hs, hl]
  · intro h
    rw [resolveNamedValue_snd]
    cases hr : ref.SecretRef with
    | none => exact absurd hr h
    | some s => simp [lastLookupError, hr, hc]
  · intro h
    rw [resolveNamedValue_snd]
    simp [lastLookupError, h]

/-- C6, amended, on an example: the Secret lookup is the last one performed
and its nil error is what comes back. -/
theorem resolveNamedValue_empty_witness :
    (configMapValue memStore clusterSecretOnly paramBoth = "" ∧
      secretValue memStore clusterSecretOnly paramBoth = "" ∧
      literalValue paramBoth = "") ∧
    (resolveNamedValue goLib memStore clusterSecretOnly paramBoth).1 = "" ∧
    (resolveNamedValue goLib memStore clusterSecretOnly paramBoth).2 =
      secretError memStore clusterSecretOnly paramBoth :=
  ⟨by decide,
   (resolveNamedValue_empty goLib memStore clusterSecretOnly paramBoth
      (by decide) (by decide) (by decide)).1,
   (resolveNamedValue_empty goLib memStore clusterSecretOnly paramBoth
      (by decide) (by decide) (by decide)).2.1 (by decide)⟩

/-- C7, as stated, fails: a literal with a template of zero placeholders, and
one with a template of two, both resolve with a nil error; the defect of the
template only shows inside the returned string. -/
theorem resolveNamedValue_no_format_error :
    placeholderCount "abc".data = 0 ∧
    resolveNamedValue goLib memStore clusterAbsent paramNoVerb =
      ("abc%!(EXTRA string=x)", none) ∧
    placeholderCount "%s-%s".data = 2 ∧
    resolveNamedValue goLib memStore clusterAbsent paramTwoVerbs =
      ("x-%!s(MISSING)", none) := by
  decide

/-- C7, amended: for a named value that resolves to the non-empty value `v` and
has the template `f`, whatever the number of placeholders of `f`,
`resolveNamedValue` returns the string `Sprintf(f, TrimSpace(v))` and no
formatting error: its error is the error of the last store lookup performed,
which is nil when the named value has neither `configMapRef` nor `secretRef`. -/
theorem resolveNamedValue_format (L : Lib) (S : Store K) (kc : K) (ref : NamedValue)
    (v f : String)
    (hv : firstNonEmpty [configMapValue S kc ref, secretValue S kc ref, literalValue ref] =
      some v)
    (hf : ref.Format = some f) :
    resolveNamedValue L S kc ref = (L.Sprintf f (L.TrimSpace v), lastLookupError S kc ref) ∧
    (ref.ConfigMapRef = none → ref.SecretRef = none →
      (resolveNamedValue L S kc ref).2 = none) := by
  refine ⟨?_, ?_⟩
  · apply Prod.ext
    · rw [resolveNamedValue_fst]
      simp only [resolveSpec, hv, hf, applyFormat]
    · exact resolveNamedValue_snd L S kc ref
  · intro h1 h2
    rw [resolveNamedValue_snd]
    simp [lastLookupError, configMapError, h1, h2]

/-- C7, amended, on an example: a one-placeholder template applied to the
trimmed value read from the sink. -/
theorem resolveNamedValue_format_witness :
    firstNonEmpty [configMapValue memStore (clusterWith " tok ") paramFormatted,
      secretValue memStore (clusterWith " tok ") paramFormatted,
      literalValue paramFormatted] = some " tok " ∧
    resolveNamedValue goLib memStore (clusterWith " tok ") paramFormatted =
      ("Bearer tok", none) :=
  ⟨by decide,
   ((resolveNamedValue_format goLib memStore (clusterWith " tok ") paramFormatted
      " tok " "Bearer %s" (by decide) rfl).1).trans (by decide)⟩

/-- A header or parameter whose resolution returns an error leaves the header
map as it was. -/
theorem setHeaders_skip (L : Lib) (S : Store K) (kc : K) (el : NamedValue)
    (rest : List NamedValue) (header : Values) (e : Error)
    (h : (resolveNamedValue L S kc el).2 = some e) :
    setHeaders L S kc (el :: rest) header = setHeaders L S kc rest header := by
  rw [setHeaders]
  split
  · rfl
  · rename_i heq
    rw [heq] at h
    cases h

/-- C5 fails on the code.  The header of Scenario D (a `secretRef` to a missing
Secret, no `configMapRef`, no `fmt`, literal `default`) resolves to the string
`default` together with the error of the failed Secret lookup, and because of
that error `Do` skips the entry: the request is sent without the header.  The
same header given by the literal alone is set. -/
theorem scenarioD_header_is_skipped :
    memStore.GetSecretValue clusterAbsent { Name := "missing", Namespace := "ns", Key := "token" } =
      ("", some (Error.lib "secret not found")) ∧
    resolveNamedValue goLib memStore clusterAbsent headerD =
      ("default", some (Error.lib "secret not found")) ∧
    buildRequest goLib memStore clusterAbsent specD =
      .ok { Method := "GET", URL := "https://example.com/a", Header := [] } ∧
    buildRequest goLib memStore clusterAbsent { specD with Headers := [headerLiteral] } =
      .ok { Method := "GET", URL := "https://example.com/a",
            Header := [("X-Token", ["default"])] } := by
  decide

end resolver

/-! ## The request builder and the fetcher (`Do`) -/

section doer

variable {K : Type}

theorem Values.index_assign (v : Values) (key : String) (xs : List String) (n : String) :
    (v.assign key xs).index n = if key = n then xs else v.index n := by
  induction v with
  | nil =>
    by_cases h : key = n <;> simp [Values.assign, Values.index, h]
  | cons kv rest ih =>
    obtain ⟨k, ys⟩ := kv
    by_cases hk : k = key
    · subst hk
      by_cases h : k = n <;> simp [Values.assign, Values.index, h]
    · by_cases h : key = n
      · subst h
        simp [Values.assign, Values.index, hk, ih]
      · by_cases hn : k = n
        · subst hn
          simp [Values.assign, Values.index, hk, h]
        · simp [Values.assign, Values.index, hk, h, hn, ih]

theorem Values.index_Add (v : Values) (key value : String) (n : String) :
    (v.Add key value).index n = if key = n then v.index n ++ [value] else v.index n := by
  rw [Values.Add, Values.index_assign]
  by_cases h : key = n
  · subst h
    simp
  · simp [h]

theorem addParams_index (L : Lib) (S : Store K) (kc : K) (els : List NamedValue)
    (params : Values) (n : String) :
    (addParams L S kc els params).index n =
      params.index n ++ resolvedValues L S kc els n := by
  induction els generalizing params with
  | nil => simp [addParams, resolvedValues]
  | cons el rest ih =>
    rw [addParams]
    split
    · rename_i val e heq
      rw [ih]
      simp [resolvedValues, List.filterMap_cons, heq]
    · rename_i val heq
      rw [ih, Values.index_Add]
      by_cases h : el.Name = n
      · simp [resolvedValues, List.filterMap_cons, heq, h]
      · simp [resolvedValues, List.filterMap_cons, heq, h]

theorem fetch_of_response (cli : Transport) (req : Request) (rsp : Response)
    (hrsp : cli req = .ok rsp) :
    fetch cli req =
      if rsp.StatusCode < 200 ∨ rsp.StatusCode ≥ 300 then
        ("", some (Error.status rsp.StatusCode))
      else
        match rsp.Body with
        | none => ("", none)
        | some (.error e) => ("", some e)
        | some (.ok dat) => (dat, none) := by
  simp only [fetch, hrsp]

theorem Do_of_request (L : Lib) (S : Store K) (cli : Transport) (kc : K)
    (spec : HttpRequestParams) (req : Request)
    (hreq : buildRequest L S kc spec = .ok req) :
    Do L S cli kc spec = fetch cli req := by
  simp only [Do, hreq]

/-- C8: when the transport answers the request of `Do` with a response of
status `s`, then, the body being readable, `Do` returns a nil error exactly
when `200 <= s < 300`; for every other `s` it returns the status error and no
bytes; a successful response without body gives an empty result and no error,
and a successful response with a readable body gives that body. -/
theorem Do_status_check (L : Lib) (S : Store K) (cli : Transport) (kc : K)
    (spec : HttpRequestParams) (req : Request) (rsp : Response)
    (hreq : buildRequest L S kc spec = .ok req) (hrsp : cli req = .ok rsp) :
    ((∀ e, rsp.Body ≠ some (.error e)) →
      ((Do L S cli kc spec).2 = none ↔ 200 ≤ rsp.StatusCode ∧ rsp.StatusCode < 300)) ∧
    (¬ (200 ≤ rsp.StatusCode ∧ rsp.StatusCode < 300) →
      Do L S cli kc spec = ("", some (Error.status rsp.StatusCode))) ∧
    (200 ≤ rsp.StatusCode ∧ rsp.StatusCode < 300 → rsp.Body = none →
      Do L S cli kc spec = ("", none)) ∧
    (200 ≤ rsp.StatusCode ∧ rsp.StatusCode < 300 → ∀ dat, rsp.Body = some (.ok dat) →
      Do L S cli kc spec = (dat, none)) := by
  rw [Do_of_request L S cli kc spec req hreq, fetch_of_response cli req rsp hrsp]
  refine ⟨?_, ?_, ?_, ?_⟩
  · intro hread
    by_cases hs : rsp.StatusCode < 200 ∨ rsp.StatusCode ≥ 300
    · simp only [hs, if_true]
      constructor
      · intro h
        cases h
      · intro h
        omega
    · simp only [hs, if_false]
      constructor
      · intro _
        omega
      · intro _
        cases hb : rsp.Body with
        | none => rfl
        | some body =>
          cases body with
          | error e => exact absurd hb (hread e)
          | ok dat => rfl
  · intro hs
    have hs2 : rsp.StatusCode < 200 ∨ rsp.StatusCode ≥ 300 := by omega
    simp only [hs2, if_true]
  · intro hs hb
    have hs2 : ¬ (rsp.StatusCode < 200 ∨ rsp.StatusCode ≥ 300) := by omega
    simp only [hs2, if_false, hb]
  · intro hs dat hb
    have hs2 : ¬ (rsp.StatusCode < 200 ∨ rsp.StatusCode ≥ 300) := by omega
    simp only [hs2, if_false, hb]

/-- C8, on an example: the endpoint of Scenario E answers 404, and `Do`
returns the status error and no bytes. -/
theorem Do_status_check_witness :
    (buildRequest goLib memStore clusterAbsent specA = .ok requestA ∧
      remote 404 (some "not found") requestA =
        .ok { StatusCode := 404, Body := some (.ok "not found") }) ∧
    Do goLib memStore (remote 404 (some "not found")) clusterAbsent specA =
      ("", some (Error.status 404)) :=
  ⟨⟨by decide, rfl⟩,
   (Do_status_check goLib memStore (remote 404 (some "not found")) clusterAbsent specA requestA
      { StatusCode := 404, Body := some (.ok "not found") } (by decide) rfl).2.1 (by decide)⟩

/-- C9: with a parseable URL, `Do` does not stop at a parameter that fails to
resolve: it goes on to create the request from the built URL, and when that
request can be created `Do` returns what the fetch of a request with that
method and URL returns.  When `spec.Params` is not empty the query string of
the built URL is the encoding of a `url.Values` in which, for every name `n`,
the values of `n` are those already in the URL's query followed by the
resolved values of exactly those entries named `n` whose resolution returned
no error, in declared order, repeated names kept; when `spec.Params` is empty
the URL is left as parsed. -/
theorem Do_params (L : Lib) (S : Store K) (cli : Transport) (kc : K)
    (spec : HttpRequestParams) (uri : URL) (hparse : L.Parse spec.URL = .ok uri) :
    (∀ req, L.NewRequest (StringOrDefault spec.Method "GET")
          (L.URLString (buildURL L S kc spec uri)) = .ok req →
      ∃ sent, buildRequest L S kc spec = .ok sent ∧ sent.Method = req.Method ∧
        sent.URL = req.URL ∧ Do L S cli kc spec = fetch cli sent) ∧
    (spec.Params ≠ [] →
      (buildURL L S kc spec uri).RawQuery =
        L.Encode (addParams L S kc spec.Params (L.Query uri))) ∧
    (∀ n, (addParams L S kc spec.Params (L.Query uri)).index n =
      (L.Query uri).index n ++ resolvedValues L S kc spec.Params n) ∧
    (spec.Params = [] → buildURL L S kc spec uri = uri) := by
  refine ⟨?_, ?_, ?_, ?_⟩
  · intro req hnew
    by_cases hh : spec.Headers.length > 0
    · refine ⟨{ req with Header := setHeaders L S kc spec.Headers req.Header }, ?_, rfl, rfl, ?_⟩
      · simp only [buildRequest, hparse, hnew, hh, if_true]
      · apply Do_of_request
        simp only [buildRequest, hparse, hnew, hh, if_true]
    · refine ⟨req, ?_, rfl, rfl, ?_⟩
      · simp only [buildRequest, hparse, hnew, hh, if_false]
      · apply Do_of_request
        simp only [buildRequest, hparse, hnew, hh, if_false]
  · intro hne
    have hlen : spec.Params.length > 0 := List.length_pos.mpr hne
    simp only [buildURL, hlen, if_true]
  · intro n
    exact addParams_index L S kc spec.Params (L.Query uri) n
  · intro he
    simp [buildURL, he]

/-- C9, on an example: the URL carries `q=0`, the params name `q` three times
with values 1, (failing), 1, and `r` once; the request goes out with
`q=0&q=1&q=1&r=9`. -/
theorem Do_params_witness :
    goLib.Parse specParams.URL =
      .ok { Path := "https://example.com/a", RawQuery := "q=0" } ∧
    (buildURL goLib memStore clusterAbsent specParams
        { Path := "https://example.com/a", RawQuery := "q=0" }).RawQuery = "q=0&q=1&q=1&r=9" ∧
    (addParams goLib memStore clusterAbsent specParams.Params
        (goLib.Query { Path := "https://example.com/a", RawQuery := "q=0" })).index "q" =
      ["0", "1", "1"] :=
  ⟨by decide,
   ((Do_params goLib memStore (remote 200 none) clusterAbsent specParams
      { Path := "https://example.com/a", RawQuery := "q=0" } (by decide)).2.1
      (by decide)).trans (by decide),
   ((Do_params goLib memStore (remote 200 none) clusterAbsent specParams
      { Path := "https://example.com/a", RawQuery := "q=0" } (by decide)).2.2.1 "q").trans
      (by decide)⟩

end doer

/-! ## The reconciliation callbacks -/

section callbacks

variable {K : Type}

theorem Observe_absent (L : Lib) (S : Store K) (cli : Transport) (kc : K) (cr : HttpRequest)
    (v : String) (hget : S.GetConfigMapValue kc (sinkRef cr.Spec.ForProvider) = (v, none))
    (hv : len v = 0) :
    Observe L S cli kc (.httpRequest cr) =
      { obs := { ResourceExists := false, ResourceUpToDate := true }, err := none,
        mg := .httpRequest cr } := by
  simp only [Observe, hget, hv, if_true]

theorem Observe_present (L : Lib) (S : Store K) (cli : Transport) (kc : K) (cr : HttpRequest)
    (v b : String) (hget : S.GetConfigMapValue kc (sinkRef cr.Spec.ForProvider) = (v, none))
    (hv : len v ≠ 0) (hdo : Do L S cli kc cr.Spec.ForProvider = (b, none)) :
    Observe L S cli kc (.httpRequest cr) =
      if (computeSHA1 L v).1 ≠ (computeSHA1 L b).1 then
        { obs := { ResourceExists := true, ResourceUpToDate := false }, err := none,
          mg := .httpRequest cr }
      else
        { obs := { ResourceExists := true, ResourceUpToDate := true }, err := none,
          mg := .httpRequest
            ({ cr with Status := { cr.Status with
                AtProvider := generateObservation cr.Spec.ForProvider } }.SetConditions
              Condition.Available) } := by
  simp only [Observe, hget, hv, if_false, computeSHA1, hdo]

theorem Observe_fetch_error (L : Lib) (S : Store K) (cli : Transport) (kc : K)
    (cr : HttpRequest) (v b : String) (e : Error)
    (hget : S.GetConfigMapValue kc (sinkRef cr.Spec.ForProvider) = (v, none))
    (hv : len v ≠ 0) (hdo : Do L S cli kc cr.Spec.ForProvider = (b, some e)) :
    Observe L S cli kc (.httpRequest cr) =
      { obs := {}, err := some (Error.wrap "cannot fetch content" e), mg := .httpRequest cr } := by
  simp only [Observe, hget, hv, if_false, computeSHA1, hdo]

/-- C1: with a non-empty stored sink value `v` and a successfully fetched body
`b`, `Observe` returns no error and `exists = true`, and `upToDate` is true
exactly when `computeSHA1(v) = computeSHA1(string(b))`, false otherwise; in
particular when the remote body equals the stored value it returns
`exists = true`, `upToDate = true`. -/
theorem Observe_digest (L : Lib) (S : Store K) (cli : Transport) (kc : K) (cr : HttpRequest)
    (v b : String) (hget : S.GetConfigMapValue kc (sinkRef cr.Spec.ForProvider) = (v, none))
    (hv : len v ≠ 0) (hdo : Do L S cli kc cr.Spec.ForProvider = (b, none)) :
    (Observe L S cli kc (.httpRequest cr)).err = none ∧
    (Observe L S cli kc (.httpRequest cr)).obs.ResourceExists = true ∧
    ((Observe L S cli kc (.httpRequest cr)).obs.ResourceUpToDate = true ↔
      (computeSHA1 L v).1 = (computeSHA1 L b).1) ∧
    ((computeSHA1 L v).1 ≠ (computeSHA1 L b).1 →
      (Observe L S cli kc (.httpRequest cr)).obs.ResourceUpToDate = false) ∧
    (b = v → (Observe L S cli kc (.httpRequest cr)).obs =
      { ResourceExists := true, ResourceUpToDate := true }) := by
  rw [Observe_present L S cli kc cr v b hget hv hdo]
  by_cases h : (computeSHA1 L v).1 = (computeSHA1 L b).1
  · simp [h]
  · refine ⟨?_, ?_, ?_, ?_, ?_⟩
    · simp [h]
    · simp [h]
    · simp [h]
    · simp [h]
    · intro hb
      subst hb
      exact absurd rfl h

/-- C1, on Scenario B: the sink holds `hello` and the remote returns `hello`. -/
theorem Observe_digest_witness :
    (memStore.GetConfigMapValue (clusterWith "hello") (sinkRef resourceA.Spec.ForProvider) =
        ("hello", none) ∧
      len "hello" ≠ 0 ∧
      Do goLib memStore (remote 200 (some "hello")) (clusterWith "hello")
        resourceA.Spec.ForProvider = ("hello", none)) ∧
    (Observe goLib memStore (remote 200 (some "hello")) (clusterWith "hello")
        (.httpRequest resourceA)).obs =
      { ResourceExists := true, ResourceUpToDate := true } :=
  ⟨by decide,
   (Observe_digest goLib memStore (remote 200 (some "hello")) (clusterWith "hello") resourceA
      "hello" "hello" (by decide) (by decide) (by decide)).2.2.2.2 rfl⟩

/-- C2: when the sink lookup succeeds and yields no value, `Observe` returns no
error with `exists = false` and `upToDate = true`, whatever the transport
would return; in particular `upToDate` is not false. -/
theorem Observe_absent_sink (L : Lib) (S : Store K) (kc : K) (cr : HttpRequest) (v : String)
    (hget : S.GetConfigMapValue kc (sinkRef cr.Spec.ForProvider) = (v, none))
    (hv : len v = 0) :
    ∀ cli : Transport,
      (Observe L S cli kc (.httpRequest cr)).err = none ∧
      (Observe L S cli kc (.httpRequest cr)).obs =
        { ResourceExists := false, ResourceUpToDate := true } ∧
      (Observe L S cli kc (.httpRequest cr)).obs.ResourceUpToDate ≠ false := by
  intro cli
  rw [Observe_absent L S cli kc cr v hget hv]
  simp

/-- C2, on Scenario A: the sink entry is absent, the remote answers 500. -/
theorem Observe_absent_sink_witness :
    (memStore.GetConfigMapValue clusterAbsent (sinkRef resourceA.Spec.ForProvider) =
        ("", none) ∧ len "" = 0) ∧
    (Observe goLib memStore (remote 500 none) clusterAbsent (.httpRequest resourceA)).obs =
      { ResourceExists := false, ResourceUpToDate := true } :=
  ⟨by decide,
   ((Observe_absent_sink goLib memStore clusterAbsent resourceA "" (by decide) (by decide))
      (remote 500 none)).2.1⟩

/-- C3: when the fetch of `Create` (respectively `Update`) fails, the callback
returns that error, the cluster state is what it was before the call and
`SetConfigMapValue` has not been called; a response status outside
`[200, 300)` is such a failure; and whenever `SetConfigMapValue` is called,
`Do` has returned a body with no error before, and that body is what is
written. -/
theorem Create_Update_fetch_failure (L : Lib) (S : Store K) (cli : Transport) (kc : K)
    (cr : HttpRequest) :
    (∀ b e, Do L S cli kc cr.Spec.ForProvider = (b, some e) →
      (Create L S cli kc (.httpRequest cr)).err = some e ∧
      (Create L S cli kc (.httpRequest cr)).kube = kc ∧
      (Create L S cli kc (.httpRequest cr)).setCalls = [] ∧
      (Update L S cli kc (.httpRequest cr)).err = some e ∧
      (Update L S cli kc (.httpRequest cr)).kube = kc ∧
      (Update L S cli kc (.httpRequest cr)).setCalls = []) ∧
    (∀ req rsp, buildRequest L S kc cr.Spec.ForProvider = .ok req → cli req = .ok rsp →
      ¬ (200 ≤ rsp.StatusCode ∧ rsp.StatusCode < 300) →
      Do L S cli kc cr.Spec.ForProvider = ("", some (Error.status rsp.StatusCode))) ∧
    ((Create L S cli kc (.httpRequest cr)).setCalls ≠ [] →
      ∃ b, Do L S cli kc cr.Spec.ForProvider = (b, none) ∧
        (Create L S cli kc (.httpRequest cr)).setCalls = [(sinkRef cr.Spec.ForProvider, b)]) ∧
    ((Update L S cli kc (.httpRequest cr)).setCalls ≠ [] →
      ∃ b, Do L S cli kc cr.Spec.ForProvider = (b, none) ∧
        (Update L S cli kc (.httpRequest cr)).setCalls = [(sinkRef cr.Spec.ForProvider, b)]) := by
  refine ⟨?_, ?_, ?_, ?_⟩
  · intro b e hdo
    simp [Create, Update, HttpRequest.SetConditions, hdo]
  · intro req rsp hreq hrsp hs
    rw [Do_of_request L S cli kc _ req hreq, fetch_of_response cli req rsp hrsp]
    have hs2 : rsp.StatusCode < 200 ∨ rsp.StatusCode ≥ 300 := by omega
    simp only [hs2, if_true]
  · intro h
    rcases hdo : Do L S cli kc cr.Spec.ForProvider with ⟨b, _ | e⟩
    · refine ⟨b, rfl, ?_⟩
      rcases hset : S.SetConfigMapValue kc (sinkRef cr.Spec.ForProvider) b with ⟨kc1, _ | e⟩ <;>
        simp [Create, HttpRequest.SetConditions, hdo, hset]
    · exfalso
      apply h
      simp [Create, HttpRequest.SetConditions, hdo]
  · intro h
    rcases hdo : Do L S cli kc cr.Spec.ForProvider with ⟨b, _ | e⟩
    · refine ⟨b, rfl, ?_⟩
      rcases hset : S.SetConfigMapValue kc (sinkRef cr.Spec.ForProvider) b with ⟨kc1, _ | e⟩ <;>
        simp [Update, hdo, hset]
    · exfalso
      apply h
      simp [Update, hdo]

/-- C3, on Scenario E: the remote answers 404 while the sink holds `hello`;
`Create` and `Update` fail and the cluster is unchanged. -/
theorem Create_Update_fetch_failure_witness :
    Do goLib memStore (remote 404 none) (clusterWith "hello") resourceA.Spec.ForProvider =
      ("", some (Error.status 404)) ∧
    (Create goLib memStore (remote 404 none) (clusterWith "hello") (.httpRequest resourceA)).err =
      some (Error.status 404) ∧
    (Create goLib memStore (remote 404 none) (clusterWith "hello") (.httpRequest resourceA)).kube =
      clusterWith "hello" ∧
    (Update goLib memStore (remote 404 none) (clusterWith "hello") (.httpRequest resourceA)).kube =
      clusterWith "hello" :=
  have h := (Create_Update_fetch_failure goLib memStore (remote 404 none) (clusterWith "hello")
    resourceA).1 "" (Error.status 404) (by decide)
  ⟨by decide, h.1, h.2.1, h.2.2.2.2.1⟩

/-- C10: among the calls of `Observe` that return no error, `exists = false`
is reported exactly when the value read from the sink has length 0, so an
entry holding the empty string is not told apart from an absent one: when the
remote answers with a successful status and an empty body, `Create` succeeds
with the single store call `SetConfigMapValue(ref, "")`, and with the store
then returning what was written an immediately following `Observe` returns
`exists = false`, `upToDate = true` and no error, whatever the remote. -/
theorem Create_empty_body_then_Observe (L : Lib) (S : Store K) (cli : Transport) (kc kc1 : K)
    (cr : HttpRequest) (req : Request) (rsp : Response)
    (hreq : buildRequest L S kc cr.Spec.ForProvider = .ok req) (hrsp : cli req = .ok rsp)
    (hs : 200 ≤ rsp.StatusCode ∧ rsp.StatusCode < 300)
    (hb : rsp.Body = none ∨ rsp.Body = some (.ok ""))
    (hset : S.SetConfigMapValue kc (sinkRef cr.Spec.ForProvider) "" = (kc1, none))
    (hget : S.GetConfigMapValue kc1 (sinkRef cr.Spec.ForProvider) = ("", none)) :
    (∀ (k : K) (v : String) (c : Transport),
      S.GetConfigMapValue k (sinkRef cr.Spec.ForProvider) = (v, none) →
      (Observe L S c k (.httpRequest cr)).err = none →
      ((Observe L S c k (.httpRequest cr)).obs.ResourceExists = false ↔ len v = 0)) ∧
    (Create L S cli kc (.httpRequest cr)).err = none ∧
    (Create L S cli kc (.httpRequest cr)).kube = kc1 ∧
    (Create L S cli kc (.httpRequest cr)).setCalls = [(sinkRef cr.Spec.ForProvider, "")] ∧
    (∀ c : Transport,
      (Observe L S c kc1 (Create L S cli kc (.httpRequest cr)).mg).err = none ∧
      (Observe L S c kc1 (Create L S cli kc (.httpRequest cr)).mg).obs =
        { ResourceExists := false, ResourceUpToDate := true }) := by
  have hdo : Do L S cli kc cr.Spec.ForProvider = ("", none) := by
    rw [Do_of_request L S cli kc _ req hreq, fetch_of_response cli req rsp hrsp]
    have hs2 : ¬ (rsp.StatusCode < 200 ∨ rsp.StatusCode ≥ 300) := by omega
    rcases hb with hb | hb <;> simp only [hs2, if_false, hb]
  have hcreate : Create L S cli kc (.httpRequest cr) =
      { err := none, kube := kc1, mg := .httpRequest (cr.SetConditions Condition.Creating),
        setCalls := [(sinkRef cr.Spec.ForProvider, "")] } := by
    simp [Create, HttpRequest.SetConditions, hdo, hset]
  refine ⟨?_, ?_, ?_, ?_, ?_⟩
  · intro k v c hg herr
    by_cases hv : len v = 0
    · rw [Observe_absent L S c k cr v hg hv]
      simp [hv]
    · rcases hd : Do L S c k cr.Spec.ForProvider with ⟨b, _ | e⟩
      · rw [Observe_present L S c k cr v b hg hv hd]
        by_cases hh : (computeSHA1 L v).1 = (computeSHA1 L b).1 <;> simp [hh, hv]
      · rw [Observe_fetch_error L S c k cr v b e hg hv hd] at herr
        cases herr
  · rw [hcreate]
  · rw [hcreate]
  · rw [hcreate]
  · intro c
    rw [hcreate]
    have hget2 : S.GetConfigMapValue kc1
        (sinkRef (cr.SetConditions Condition.Creating).Spec.ForProvider) = ("", none) := hget
    rw [Observe_absent L S c kc1 (cr.SetConditions Condition.Creating) "" hget2 rfl]
    simp

/-- C10, on an example: the remote answers 200 with an empty body, `Create`
stores the empty string, and `Observe` then reports `exists = false`. -/
theorem Create_empty_body_then_Observe_witness :
    memStore.SetConfigMapValue clusterAbsent (sinkRef resourceA.Spec.ForProvider) "" =
      (clusterWith "", none) ∧
    memStore.GetConfigMapValue (clusterWith "") (sinkRef resourceA.Spec.ForProvider) =
      ("", none) ∧
    (Create goLib memStore (remote 200 (some "")) clusterAbsent (.httpRequest resourceA)).kube =
      clusterWith "" ∧
    (Observe goLib memStore (remote 200 (some "")) (clusterWith "")
      (Create goLib memStore (remote 200 (some "")) clusterAbsent (.httpRequest resourceA)).mg).obs =
      { ResourceExists := false, ResourceUpToDate := true } :=
  have h := Create_empty_body_then_Observe goLib memStore (remote 200 (some "")) clusterAbsent
    (clusterWith "") resourceA requestA { StatusCode := 200, Body := some (.ok "") }
    (by decide) rfl (by decide) (Or.inr rfl) (by decide) (by decide)
  ⟨by decide, by decide, h.2.2.1, (h.2.2.2.2 (remote 200 (some ""))).2⟩

end callbacks

end ProviderToolbox
